import Mathlib

/-!
Verification of the file-based context-loading subsystem of the
RAG newsletter copywriting assistant (`src/agent.py`).

The filesystem is modelled as a structure of pure observation functions:
directory existence, path existence, whether a read of an existing path
succeeds, the content obtained on a successful read, the message of the
exception raised on a failed read, and directory listings (base names).
Python exceptions are modelled with `Except`; the two exception kinds the
code distinguishes (FileNotFoundError raised by explicit precondition
checks, and any other read failure) become the two constructors of
`PyError`, each carrying its `str(exc)` message.
-/

/-- A snapshot of the filesystem as observed by the loader. -/
structure FS where
  /-- `os.path.isdir p` -/
  isDir : String → Bool
  /-- `os.path.exists p` -/
  pathExists : String → Bool
  /-- whether `open(p).read()` succeeds, given the path exists -/
  readOk : String → Bool
  /-- the decoded text returned when the read succeeds -/
  content : String → String
  /-- `str(exc)` for the exception raised when the read fails -/
  readErr : String → String
  /-- the base names of the entries of a directory -/
  listDir : String → List String

/-- The exceptions the loader raises: `FileNotFoundError` from the explicit
precondition checks, and any other failure while reading an existing file.
Each carries its `str(exc)` message. -/
inductive PyError where
  | fileNotFound (msg : String)
  | readFailure (msg : String)
deriving DecidableEq, Repr

/-- `str(exc)`: the message carried by the exception. -/
def PyError.message : PyError → String
  | .fileNotFound msg => msg
  | .readFailure msg => msg

/-- `os.path.join dir name` (one component appended). -/
def joinPath (dir name : String) : String := dir ++ "/" ++ name

/-- `os.path.basename p`: the part of `p` after the last slash. -/
def basename (p : String) : String :=
  String.mk ((p.data.reverse.takeWhile (fun c => c ≠ '/')).reverse)

/-- The candidate markdown roots tried by `_resolve_markdown_root`, in order:
the primary name, then the common-typo fallback. -/
def markdownRootCandidates (root : String) : List String :=
  [joinPath root "markdown-files", joinPath root "mardown-files"]

/-- `_resolve_markdown_root`: the first candidate that is a directory,
defaulting to the first candidate when neither exists. -/
def resolve_markdown_root (fs : FS) (root : String) : String :=
  match (markdownRootCandidates root).find? (fun c => fs.isDir c) with
  | some c => c
  | none => (markdownRootCandidates root).headD ""

/-- `MARKDOWN_ROOT` (module-level constant, computed once at import). -/
def MARKDOWN_ROOT (fs : FS) (root : String) : String :=
  resolve_markdown_root fs root

/-- `EDITORIAL_GUIDELINES_PATH` -/
def EDITORIAL_GUIDELINES_PATH (fs : FS) (root : String) : String :=
  joinPath (MARKDOWN_ROOT fs root) "Editorial Guidelines.md"

/-- `BRIEFING_PATH` -/
def BRIEFING_PATH (fs : FS) (root : String) : String :=
  joinPath (MARKDOWN_ROOT fs root) "Briefing.md"

/-- `PAST_NEWSLETTERS_DIR` -/
def PAST_NEWSLETTERS_DIR (fs : FS) (root : String) : String :=
  joinPath (MARKDOWN_ROOT fs root) "past_newsletter"

/-- `_safe_read_text_file`: explicit existence precondition raising
`FileNotFoundError`, then the read itself, which may fail with some other
exception. -/
def safe_read_text_file (fs : FS) (path : String) : Except PyError String :=
  if fs.pathExists path = false then
    .error (.fileNotFound ("File not found: " ++ path))
  else if fs.readOk path then
    .ok (fs.content path)
  else
    .error (.readFailure (fs.readErr path))

/-- `_load_editorial_guidelines_text` -/
def load_editorial_guidelines_text (fs : FS) (root : String) :
    Except PyError String :=
  safe_read_text_file fs (EDITORIAL_GUIDELINES_PATH fs root)

/-- `_load_briefing_text` -/
def load_briefing_text (fs : FS) (root : String) : Except PyError String :=
  safe_read_text_file fs (BRIEFING_PATH fs root)

/-- Whether a directory-entry name matches the glob pattern `*.md`: it ends
with `.md`, and the `*` of `glob.glob` does not match a leading dot. -/
def matchesMdGlob (name : String) : Bool :=
  List.isPrefixOf ".md".data.reverse name.data.reverse
    && !(name.data.head? == some '.')

/-- `glob.glob(os.path.join(dir, "*.md"))`: the full paths of the entries of
`dir` matching `*.md`, before sorting. -/
def globMdPaths (fs : FS) (dir : String) : List String :=
  ((fs.listDir dir).filter matchesMdGlob).map (joinPath dir)

/-- Code-point comparison of character lists: the lexicographic order that
Python `sorted` applies to strings. -/
def charListLe : List Char → List Char → Bool
  | [], _ => true
  | _ :: _, [] => false
  | a :: as, b :: bs =>
    if a < b then true
    else if b < a then false
    else charListLe as bs

/-- Code-point lexicographic comparison of strings. -/
def strLe (a b : String) : Bool := charListLe a.data b.data

/-- `sorted(glob.glob(...))`: the matching paths in ascending lexicographic
order. -/
def sortedMdPaths (fs : FS) (dir : String) : List String :=
  List.insertionSort (fun a b => strLe a b = true) (globMdPaths fs dir)

/-- One iteration of the per-file loop of `_load_past_newsletters_texts`:
a heading line with the base name, then the content, or an inline error
annotation when the read raised. -/
def newsletterBlock (fs : FS) (path : String) : String :=
  match safe_read_text_file fs path with
  | .ok content => "## " ++ basename path ++ "\n" ++ content
  | .error exc =>
      "## " ++ basename path ++ "\n[Error reading file: " ++ exc.message ++ "]"

/-- `_load_past_newsletters_texts` -/
def load_past_newsletters_texts (fs : FS) (root : String) :
    Except PyError (List String) :=
  if fs.isDir (PAST_NEWSLETTERS_DIR fs root) = false then
    .error (.fileNotFound ("Directory not found: " ++ PAST_NEWSLETTERS_DIR fs root))
  else
    let md_paths := sortedMdPaths fs (PAST_NEWSLETTERS_DIR fs root)
    if md_paths.isEmpty then .ok []
    else .ok (md_paths.map (newsletterBlock fs))

/-- The `load_past_newsletters` tool: the blocks joined by blank lines, or a
placeholder when there are none; exceptions from the loader propagate. -/
def load_past_newsletters (fs : FS) (root : String) : Except PyError String :=
  match load_past_newsletters_texts fs root with
  | .ok texts =>
      .ok (if texts.isEmpty then "[No past newsletters found]"
           else String.intercalate "\n\n" texts)
  | .error e => .error e

/-- The fixed instruction preamble of `preload_context_once`. -/
def contextPreamble : String :=
  "You will be given initial private context for this conversation. Read it, internalize it, and acknowledge only with: \x27Context absorbed.\x27 Do not restate the context unless the user explicitly asks.\n\n"

/-- `preload_context_once`: each sub-load is attempted independently and any
failure is downgraded to an inline bracketed error string; the three sections
are concatenated under fixed headings after the preamble. -/
def preload_context_once (fs : FS) (root : String) : String :=
  let guidelines :=
    match load_editorial_guidelines_text fs root with
    | .ok g => g
    | .error exc => "[Could not load Editorial Guidelines: " ++ exc.message ++ "]"
  let briefing :=
    match load_briefing_text fs root with
    | .ok b => b
    | .error exc => "[Could not load Briefing: " ++ exc.message ++ "]"
  let past_joined :=
    match load_past_newsletters_texts fs root with
    | .ok past =>
        if past.isEmpty then "[No past newsletters found]"
        else String.intercalate "\n\n" past
    | .error exc => "[Could not load past newsletters: " ++ exc.message ++ "]"
  contextPreamble ++
    "[EDITORIAL GUIDELINES]\n" ++ guidelines ++ "\n\n" ++
    "[BRIEFING]\n" ++ briefing ++ "\n\n" ++
    "[PAST NEWSLETTERS]\n" ++ past_joined

/-- The first section body of `preload_context_once`: the guidelines text, or
the inline bracketed error. -/
def guidelinesSection (fs : FS) (root : String) : String :=
  match load_editorial_guidelines_text fs root with
  | .ok g => g
  | .error exc => "[Could not load Editorial Guidelines: " ++ exc.message ++ "]"

/-- The second section body of `preload_context_once`. -/
def briefingSection (fs : FS) (root : String) : String :=
  match load_briefing_text fs root with
  | .ok b => b
  | .error exc => "[Could not load Briefing: " ++ exc.message ++ "]"

/-- The third section body of `preload_context_once`: the joined newsletter
blocks, a placeholder when there are none, or the inline bracketed error. -/
def pastSection (fs : FS) (root : String) : String :=
  match load_past_newsletters_texts fs root with
  | .ok past =>
      if past.isEmpty then "[No past newsletters found]"
      else String.intercalate "\n\n" past
  | .error exc => "[Could not load past newsletters: " ++ exc.message ++ "]"

/-! ### Concrete filesystems used to witness the theorems -/

/-- A demo filesystem in which every document is present and readable. -/
def fsAllPresent : FS where
  isDir := fun p =>
    p = "/proj/markdown-files" || p = "/proj/markdown-files/past_newsletter"
  pathExists := fun p =>
    p = "/proj/markdown-files/Editorial Guidelines.md" ||
    p = "/proj/markdown-files/Briefing.md" ||
    p = "/proj/markdown-files/past_newsletter/2024-01-01.md"
  readOk := fun p =>
    p = "/proj/markdown-files/Editorial Guidelines.md" ||
    p = "/proj/markdown-files/Briefing.md" ||
    p = "/proj/markdown-files/past_newsletter/2024-01-01.md"
  content := fun p =>
    if p = "/proj/markdown-files/past_newsletter/2024-01-01.md" then "Hello"
    else if p = "/proj/markdown-files/Editorial Guidelines.md" then "Guidelines text"
    else "Briefing text"
  readErr := fun _ => ""
  listDir := fun d =>
    if d = "/proj/markdown-files/past_newsletter" then ["2024-01-01.md"] else []

/-- A demo filesystem with nothing on disk. -/
def fsAllMissing : FS where
  isDir := fun _ => false
  pathExists := fun _ => false
  readOk := fun _ => false
  content := fun _ => ""
  readErr := fun _ => ""
  listDir := fun _ => []

/-- A demo filesystem whose newsletter directory exists but is empty. -/
def fsEmptyNewsletters : FS where
  isDir := fun p =>
    p = "/proj/markdown-files" || p = "/proj/markdown-files/past_newsletter"
  pathExists := fun _ => false
  readOk := fun _ => false
  content := fun _ => ""
  readErr := fun _ => ""
  listDir := fun _ => []

/-- A demo filesystem with two newsletters, where reading `b.md` fails. -/
def fsOneUnreadable : FS where
  isDir := fun p =>
    p = "/proj/markdown-files" || p = "/proj/markdown-files/past_newsletter"
  pathExists := fun p =>
    p = "/proj/markdown-files/past_newsletter/a.md" ||
    p = "/proj/markdown-files/past_newsletter/b.md"
  readOk := fun p => p = "/proj/markdown-files/past_newsletter/a.md"
  content := fun _ => "Alpha"
  readErr := fun _ => "Permission denied"
  listDir := fun d =>
    if d = "/proj/markdown-files/past_newsletter" then ["b.md", "a.md"] else []

/-- A demo filesystem in which the guidelines file exists but reading it
fails (a ReadFailure rather than a NotFound). -/
def fsUnreadableGuidelines : FS where
  isDir := fun p =>
    p = "/proj/markdown-files" || p = "/proj/markdown-files/past_newsletter"
  pathExists := fun p => p = "/proj/markdown-files/Editorial Guidelines.md"
  readOk := fun _ => false
  content := fun _ => ""
  readErr := fun _ => "Permission denied"
  listDir := fun _ => []

/-! ### Helper lemmas about paths and lexicographic order -/

theorem basename_joinPath (dir name : String) (h : ('/' : Char) ∉ name.data) :
    basename (joinPath dir name) = name := by
  have hdata : (joinPath dir name).data.reverse
      = name.data.reverse ++ ('/' :: dir.data.reverse) := by
    simp [joinPath, String.data_append, List.reverse_append]
  have hall : ∀ c ∈ name.data.reverse, (fun c => decide (c ≠ '/')) c = true := by
    intro c hc
    simp only [List.mem_reverse] at hc
    simp only [decide_eq_true_eq]
    intro hc2
    exact h (hc2 ▸ hc)
  unfold basename
  rw [hdata, List.takeWhile_append_of_pos hall]
  simp

theorem charlist_lt_append_left_iff (p a b : List Char) :
    p ++ a < p ++ b ↔ a < b := by
  constructor
  · intro h
    induction p with
    | nil => exact h
    | cons c p ih => exact ih (List.Lex.cons_iff.mp h)
  · intro h
    exact List.Lex.append_left _ h p

theorem string_append_lt_iff (s a b : String) : s ++ a < s ++ b ↔ a < b := by
  rw [String.lt_iff_toList_lt, @String.lt_iff_toList_lt a b]
  exact charlist_lt_append_left_iff s.toList a.toList b.toList

theorem string_append_le_iff (s a b : String) : s ++ a ≤ s ++ b ↔ a ≤ b := by
  simp only [← not_lt]
  exact not_congr (string_append_lt_iff s b a)

theorem joinPath_le_iff (dir a b : String) :
    joinPath dir a ≤ joinPath dir b ↔ a ≤ b := by
  have h : ∀ x : String, joinPath dir x = (dir ++ "/") ++ x := by
    intro x
    simp [joinPath, String.append_assoc]
  rw [h a, h b, string_append_le_iff]

theorem charListLe_iff (as bs : List Char) :
    charListLe as bs = true ↔ ¬ List.Lex (· < ·) bs as := by
  induction as generalizing bs with
  | nil =>
    cases bs with
    | nil => simp [charListLe]
    | cons b bs => simp [charListLe]
  | cons a as ih =>
    cases bs with
    | nil =>
      simp [charListLe]
      exact List.Lex.nil
    | cons b bs =>
      by_cases hab : a < b
      · have hne : b ≠ a := ne_of_gt hab
        have hnba : ¬ b < a := not_lt_of_gt hab
        simp only [charListLe, if_pos hab, true_iff]
        intro hlex
        cases hlex with
        | cons h => exact hne rfl
        | rel h => exact hnba h
      · by_cases hba : b < a
        · simp only [charListLe, if_neg hab, if_pos hba]
          constructor
          · intro h
            exact absurd h Bool.false_ne_true
          · intro h
            exact absurd (List.Lex.rel hba) h
        · have heq : a = b := le_antisymm (le_of_not_lt hba) (le_of_not_lt hab)
          subst heq
          simp only [charListLe, if_neg hab, if_neg hba]
          rw [ih bs]
          constructor
          · intro h hlex
            cases hlex with
            | cons h2 => exact h h2
            | rel h2 => exact hab h2
          · intro h hlex
            exact h (List.Lex.cons hlex)

theorem strLe_iff (a b : String) : strLe a b = true ↔ a ≤ b := by
  have h : (a ≤ b) ↔ ¬ b < a := Iff.rfl
  rw [h, String.lt_iff_toList_lt]
  exact charListLe_iff a.data b.data

instance : IsTotal String (fun a b => strLe a b = true) where
  total a b := by
    rcases le_total a b with h | h
    · exact Or.inl ((strLe_iff a b).mpr h)
    · exact Or.inr ((strLe_iff b a).mpr h)

instance : IsTrans String (fun a b => strLe a b = true) where
  trans a b c hab hbc :=
    (strLe_iff a c).mpr (le_trans ((strLe_iff a b).mp hab) ((strLe_iff b c).mp hbc))

theorem sortedMdPaths_perm (fs : FS) (dir : String) :
    (sortedMdPaths fs dir).Perm (globMdPaths fs dir) :=
  List.perm_insertionSort _ _

theorem sortedMdPaths_sorted (fs : FS) (dir : String) :
    List.Sorted (fun a b : String => a ≤ b) (sortedMdPaths fs dir) := by
  have h := List.sorted_insertionSort (fun a b : String => strLe a b = true)
    (globMdPaths fs dir)
  exact h.imp (fun hab => (strLe_iff _ _).mp hab)

theorem mem_globMdPaths (fs : FS) (dir p : String)
    (hp : p ∈ globMdPaths fs dir) :
    ∃ n ∈ fs.listDir dir, matchesMdGlob n = true ∧ p = joinPath dir n := by
  unfold globMdPaths at hp
  simp only [List.mem_map, List.mem_filter] at hp
  obtain ⟨n, ⟨hn, hmatch⟩, rfl⟩ := hp
  exact ⟨n, hn, hmatch, rfl⟩

theorem load_past_newsletters_texts_eq_map (fs : FS) (root : String)
    (hdir : fs.isDir (PAST_NEWSLETTERS_DIR fs root) = true) :
    load_past_newsletters_texts fs root =
      .ok ((sortedMdPaths fs (PAST_NEWSLETTERS_DIR fs root)).map
        (newsletterBlock fs)) := by
  unfold load_past_newsletters_texts
  rw [hdir]
  by_cases h : (sortedMdPaths fs (PAST_NEWSLETTERS_DIR fs root)).isEmpty
  · rw [List.isEmpty_iff] at h
    simp [h]
  · simp [h]

theorem newsletterBlock_ok (fs : FS) (p : String)
    (hex : fs.pathExists p = true) (hro : fs.readOk p = true) :
    newsletterBlock fs p = "## " ++ basename p ++ "\n" ++ fs.content p := by
  unfold newsletterBlock safe_read_text_file
  simp [hex, hro]

theorem newsletterBlock_readFail (fs : FS) (p : String)
    (hex : fs.pathExists p = true) (hro : fs.readOk p = false) :
    newsletterBlock fs p
      = "## " ++ basename p ++ "\n[Error reading file: " ++ fs.readErr p ++ "]" := by
  unfold newsletterBlock safe_read_text_file
  simp [hex, hro, PyError.message]

/-! ### Claim theorems -/

/-- C4: the path resolver returns the first of the two candidate directory
names (primary `markdown-files`, then the typo alternate `mardown-files`)
that exists as a directory under the project root; when neither exists it
deterministically returns the primary candidate path. -/
theorem resolver_first_existing_else_primary (fs : FS) (root : String) :
    resolve_markdown_root fs root =
      if fs.isDir (joinPath root "markdown-files") = true then
        joinPath root "markdown-files"
      else if fs.isDir (joinPath root "mardown-files") = true then
        joinPath root "mardown-files"
      else joinPath root "markdown-files" := by
  unfold resolve_markdown_root markdownRootCandidates
  by_cases h1 : fs.isDir (joinPath root "markdown-files") = true <;>
    by_cases h2 : fs.isDir (joinPath root "mardown-files") = true <;>
      simp [List.find?, h1, h2]

/-- C5: the single-document reader fails with a NotFound error naming the
missing path exactly when the path does not exist, and returns the full
decoded text when the path exists and the read succeeds. -/
theorem single_reader_notfound_iff_missing (fs : FS) (path : String) :
    (safe_read_text_file fs path
        = .error (.fileNotFound ("File not found: " ++ path))
      ↔ fs.pathExists path = false) ∧
    (fs.pathExists path = true → fs.readOk path = true →
      safe_read_text_file fs path = .ok (fs.content path)) := by
  by_cases hex : fs.pathExists path = true
  · by_cases hro : fs.readOk path = true
    · exact ⟨by simp [safe_read_text_file, hex, hro],
        fun _ _ => by simp [safe_read_text_file, hex, hro]⟩
    · have hro2 : fs.readOk path = false := Bool.not_eq_true _ ▸ hro
      exact ⟨by simp [safe_read_text_file, hex, hro2],
        fun _ h => absurd h hro⟩
  · have hex2 : fs.pathExists path = false := Bool.not_eq_true _ ▸ hex
    exact ⟨by simp [safe_read_text_file, hex2],
      fun h _ => absurd h hex⟩

/-- Witness for C5: on a concrete filesystem the briefing file reads back. -/
theorem single_reader_notfound_iff_missing_witness :
    safe_read_text_file fsAllPresent "/proj/markdown-files/Briefing.md"
      = .ok "Briefing text" :=
  (single_reader_notfound_iff_missing fsAllPresent
    "/proj/markdown-files/Briefing.md").2 rfl rfl

theorem preload_context_once_eq (fs : FS) (root : String) :
    preload_context_once fs root =
      contextPreamble ++
        "[EDITORIAL GUIDELINES]\n" ++ guidelinesSection fs root ++ "\n\n" ++
        "[BRIEFING]\n" ++ briefingSection fs root ++ "\n\n" ++
        "[PAST NEWSLETTERS]\n" ++ pastSection fs root := rfl

/-- C6: for an existing newsletter directory with no matching files the
collection reader returns the empty sequence (not an error); for an absent
directory it raises a NotFound error naming the directory, and that error
propagates uncaught through the `load_past_newsletters` tool. -/
theorem collection_empty_ok_absent_notfound (fs : FS) (root : String) :
    (fs.isDir (PAST_NEWSLETTERS_DIR fs root) = true →
      globMdPaths fs (PAST_NEWSLETTERS_DIR fs root) = [] →
      load_past_newsletters_texts fs root = .ok []) ∧
    (fs.isDir (PAST_NEWSLETTERS_DIR fs root) = false →
      load_past_newsletters_texts fs root
        = .error (.fileNotFound
            ("Directory not found: " ++ PAST_NEWSLETTERS_DIR fs root)) ∧
      load_past_newsletters fs root
        = .error (.fileNotFound
            ("Directory not found: " ++ PAST_NEWSLETTERS_DIR fs root))) := by
  constructor
  · intro hdir hempty
    rw [load_past_newsletters_texts_eq_map fs root hdir]
    unfold sortedMdPaths
    rw [hempty]
    simp
  · intro hdir
    have h1 : load_past_newsletters_texts fs root
        = .error (.fileNotFound
            ("Directory not found: " ++ PAST_NEWSLETTERS_DIR fs root)) := by
      unfold load_past_newsletters_texts
      rw [hdir]
      simp
    refine ⟨h1, ?_⟩
    unfold load_past_newsletters
    rw [h1]

/-- Witness for C6: an existing empty directory yields `ok []`; a missing
directory yields the NotFound error, also through the tool. -/
theorem collection_empty_ok_absent_notfound_witness :
    load_past_newsletters_texts fsEmptyNewsletters "/proj" = .ok [] ∧
    load_past_newsletters fsAllMissing "/proj"
      = .error (.fileNotFound
          ("Directory not found: /proj/markdown-files/past_newsletter")) :=
  ⟨(collection_empty_ok_absent_notfound fsEmptyNewsletters "/proj").1 rfl rfl,
   ((collection_empty_ok_absent_notfound fsAllMissing "/proj").2 rfl).2⟩

/-- C7: if the newsletter directory contains exactly one file named
`2024-01-01.md` whose content is `Hello`, reading the collection yields
exactly one block whose text is `## 2024-01-01.md\nHello`. -/
theorem collection_roundtrip_single_file (fs : FS) (root : String)
    (hdir : fs.isDir (PAST_NEWSLETTERS_DIR fs root) = true)
    (hlist : fs.listDir (PAST_NEWSLETTERS_DIR fs root) = ["2024-01-01.md"])
    (hex : fs.pathExists
      (joinPath (PAST_NEWSLETTERS_DIR fs root) "2024-01-01.md") = true)
    (hro : fs.readOk
      (joinPath (PAST_NEWSLETTERS_DIR fs root) "2024-01-01.md") = true)
    (hc : fs.content
      (joinPath (PAST_NEWSLETTERS_DIR fs root) "2024-01-01.md") = "Hello") :
    load_past_newsletters_texts fs root = .ok ["## 2024-01-01.md\nHello"] := by
  have hglob : globMdPaths fs (PAST_NEWSLETTERS_DIR fs root)
      = [joinPath (PAST_NEWSLETTERS_DIR fs root) "2024-01-01.md"] := by
    unfold globMdPaths
    rw [hlist]
    have hm : matchesMdGlob "2024-01-01.md" = true := by decide
    simp [hm]
  have hsorted : sortedMdPaths fs (PAST_NEWSLETTERS_DIR fs root)
      = [joinPath (PAST_NEWSLETTERS_DIR fs root) "2024-01-01.md"] := by
    unfold sortedMdPaths
    rw [hglob]
    simp
  rw [load_past_newsletters_texts_eq_map fs root hdir, hsorted]
  simp only [List.map_cons, List.map_nil]
  rw [newsletterBlock_ok fs _ hex hro, hc,
    basename_joinPath _ _ (by decide)]
  rfl

/-- Witness for C7 on a concrete filesystem holding exactly that file. -/
theorem collection_roundtrip_single_file_witness :
    load_past_newsletters_texts fsAllPresent "/proj"
      = .ok ["## 2024-01-01.md\nHello"] :=
  collection_roundtrip_single_file fsAllPresent "/proj" rfl rfl rfl rfl rfl

/-- C3: for an existing directory all of whose matching `*.md` files are
readable, the collection reader returns exactly one labeled block per
matching file — a heading line with the file's base name followed by its
content — ordered by ascending filename (lexicographic). -/
theorem collection_reader_sorted_blocks (fs : FS) (root : String)
    (hdir : fs.isDir (PAST_NEWSLETTERS_DIR fs root) = true)
    (hread : ∀ p ∈ globMdPaths fs (PAST_NEWSLETTERS_DIR fs root),
      fs.pathExists p = true ∧ fs.readOk p = true)
    (hnames : ∀ n ∈ fs.listDir (PAST_NEWSLETTERS_DIR fs root),
      ('/' : Char) ∉ n.data) :
    ∃ paths : List String,
      load_past_newsletters_texts fs root
        = .ok (paths.map (fun p => "## " ++ basename p ++ "\n" ++ fs.content p)) ∧
      paths.Perm (globMdPaths fs (PAST_NEWSLETTERS_DIR fs root)) ∧
      paths.length = (globMdPaths fs (PAST_NEWSLETTERS_DIR fs root)).length ∧
      List.Sorted (fun a b : String => a ≤ b) (paths.map basename) := by
  refine ⟨sortedMdPaths fs (PAST_NEWSLETTERS_DIR fs root), ?_, ?_, ?_, ?_⟩
  · rw [load_past_newsletters_texts_eq_map fs root hdir]
    congr 1
    apply List.map_congr_left
    intro p hp
    obtain ⟨hex, hro⟩ := hread p ((sortedMdPaths_perm _ _).subset hp)
    exact newsletterBlock_ok fs p hex hro
  · exact sortedMdPaths_perm _ _
  · exact (sortedMdPaths_perm _ _).length_eq
  · have hs := sortedMdPaths_sorted fs (PAST_NEWSLETTERS_DIR fs root)
    show List.Pairwise _ _
    rw [List.pairwise_map]
    refine List.Pairwise.imp_of_mem ?_ hs
    intro a b ha hb hab
    obtain ⟨n1, hn1, _, rfl⟩ :=
      mem_globMdPaths fs _ a ((sortedMdPaths_perm _ _).subset ha)
    obtain ⟨n2, hn2, _, rfl⟩ :=
      mem_globMdPaths fs _ b ((sortedMdPaths_perm _ _).subset hb)
    rw [basename_joinPath _ _ (hnames n1 hn1),
      basename_joinPath _ _ (hnames n2 hn2)]
    exact (joinPath_le_iff _ n1 n2).mp hab

/-- Witness for C3 on a concrete filesystem with one readable newsletter. -/
theorem collection_reader_sorted_blocks_witness :
    ∃ paths : List String,
      load_past_newsletters_texts fsAllPresent "/proj"
        = .ok (paths.map (fun p =>
            "## " ++ basename p ++ "\n" ++ fsAllPresent.content p)) ∧
      paths.Perm (globMdPaths fsAllPresent
        (PAST_NEWSLETTERS_DIR fsAllPresent "/proj")) ∧
      paths.length = (globMdPaths fsAllPresent
        (PAST_NEWSLETTERS_DIR fsAllPresent "/proj")).length ∧
      List.Sorted (fun a b : String => a ≤ b) (paths.map basename) :=
  collection_reader_sorted_blocks fsAllPresent "/proj" rfl
    (by decide) (by decide)

/-- C1: with exactly one unreadable file among the matching files of an
existing directory, the collection reader still returns one block per file
in order, the failing file's block replaced by its heading line plus an
inline error annotation, and no exception escapes (the result is `ok`). -/
theorem collection_reader_isolates_failure (fs : FS) (root : String)
    (bad : String)
    (hdir : fs.isDir (PAST_NEWSLETTERS_DIR fs root) = true)
    (hmem : bad ∈ globMdPaths fs (PAST_NEWSLETTERS_DIR fs root))
    (hbadex : fs.pathExists bad = true)
    (hbadro : fs.readOk bad = false)
    (hgood : ∀ p ∈ globMdPaths fs (PAST_NEWSLETTERS_DIR fs root), p ≠ bad →
      fs.pathExists p = true ∧ fs.readOk p = true) :
    load_past_newsletters_texts fs root
      = .ok ((sortedMdPaths fs (PAST_NEWSLETTERS_DIR fs root)).map (fun p =>
          if p = bad then
            "## " ++ basename p ++ "\n[Error reading file: "
              ++ fs.readErr p ++ "]"
          else "## " ++ basename p ++ "\n" ++ fs.content p)) ∧
    ((sortedMdPaths fs (PAST_NEWSLETTERS_DIR fs root)).map (fun p =>
          if p = bad then
            "## " ++ basename p ++ "\n[Error reading file: "
              ++ fs.readErr p ++ "]"
          else "## " ++ basename p ++ "\n" ++ fs.content p)).length
      = (globMdPaths fs (PAST_NEWSLETTERS_DIR fs root)).length := by
  constructor
  · rw [load_past_newsletters_texts_eq_map fs root hdir]
    congr 1
    apply List.map_congr_left
    intro p hp
    by_cases hpb : p = bad
    · subst hpb
      rw [if_pos rfl]
      exact newsletterBlock_readFail fs p hbadex hbadro
    · rw [if_neg hpb]
      obtain ⟨hex, hro⟩ := hgood p ((sortedMdPaths_perm _ _).subset hp) hpb
      exact newsletterBlock_ok fs p hex hro
  · rw [List.length_map]
    exact (sortedMdPaths_perm _ _).length_eq

/-- Witness for C1: two newsletters, `b.md` unreadable; both blocks come
back, in filename order, with the error annotation on `b.md`. -/
theorem collection_reader_isolates_failure_witness :
    load_past_newsletters_texts fsOneUnreadable "/proj"
      = .ok ["## a.md\nAlpha",
             "## b.md\n[Error reading file: Permission denied]"] := by
  have h := (collection_reader_isolates_failure fsOneUnreadable "/proj"
    "/proj/markdown-files/past_newsletter/b.md" rfl (by decide) rfl rfl
    (by decide)).1
  rw [h]
  rfl

/-- C2: the context assembler never fails: its result is always the preamble
followed by the three headed sections; each of the three sub-loads that
fails for any reason — any `PyError`, NotFound or ReadFailure alike,
independently of the other two — has its section replaced by the inline
bracketed error string carrying that failure's message; and with all three
sources missing every section holds its bracketed placeholder message. -/
theorem assembler_total_and_all_missing (fs : FS) (root : String) :
    (∃ g b p : String,
      preload_context_once fs root =
        contextPreamble ++
          "[EDITORIAL GUIDELINES]\n" ++ g ++ "\n\n" ++
          "[BRIEFING]\n" ++ b ++ "\n\n" ++
          "[PAST NEWSLETTERS]\n" ++ p) ∧
    (∀ exc : PyError, load_editorial_guidelines_text fs root = .error exc →
      ∃ b p : String,
        preload_context_once fs root =
          contextPreamble ++
            "[EDITORIAL GUIDELINES]\n" ++
              ("[Could not load Editorial Guidelines: "
                ++ exc.message ++ "]") ++ "\n\n" ++
            "[BRIEFING]\n" ++ b ++ "\n\n" ++
            "[PAST NEWSLETTERS]\n" ++ p) ∧
    (∀ exc : PyError, load_briefing_text fs root = .error exc →
      ∃ g p : String,
        preload_context_once fs root =
          contextPreamble ++
            "[EDITORIAL GUIDELINES]\n" ++ g ++ "\n\n" ++
            "[BRIEFING]\n" ++
              ("[Could not load Briefing: " ++ exc.message ++ "]") ++ "\n\n" ++
            "[PAST NEWSLETTERS]\n" ++ p) ∧
    (∀ exc : PyError, load_past_newsletters_texts fs root = .error exc →
      ∃ g b : String,
        preload_context_once fs root =
          contextPreamble ++
            "[EDITORIAL GUIDELINES]\n" ++ g ++ "\n\n" ++
            "[BRIEFING]\n" ++ b ++ "\n\n" ++
            "[PAST NEWSLETTERS]\n" ++
              ("[Could not load past newsletters: " ++ exc.message ++ "]")) ∧
    (fs.pathExists (EDITORIAL_GUIDELINES_PATH fs root) = false →
     fs.pathExists (BRIEFING_PATH fs root) = false →
     fs.isDir (PAST_NEWSLETTERS_DIR fs root) = false →
      preload_context_once fs root =
        contextPreamble ++
          "[EDITORIAL GUIDELINES]\n" ++
            ("[Could not load Editorial Guidelines: "
              ++ ("File not found: " ++ EDITORIAL_GUIDELINES_PATH fs root)
              ++ "]") ++ "\n\n" ++
          "[BRIEFING]\n" ++
            ("[Could not load Briefing: "
              ++ ("File not found: " ++ BRIEFING_PATH fs root)
              ++ "]") ++ "\n\n" ++
          "[PAST NEWSLETTERS]\n" ++
            ("[Could not load past newsletters: "
              ++ ("Directory not found: " ++ PAST_NEWSLETTERS_DIR fs root)
              ++ "]")) := by
  refine ⟨⟨guidelinesSection fs root, briefingSection fs root,
      pastSection fs root, preload_context_once_eq fs root⟩, ?_, ?_, ?_, ?_⟩
  · intro exc hexc
    refine ⟨briefingSection fs root, pastSection fs root, ?_⟩
    rw [preload_context_once_eq]
    unfold guidelinesSection
    rw [hexc]
  · intro exc hexc
    refine ⟨guidelinesSection fs root, pastSection fs root, ?_⟩
    rw [preload_context_once_eq]
    unfold briefingSection
    rw [hexc]
  · intro exc hexc
    refine ⟨guidelinesSection fs root, briefingSection fs root, ?_⟩
    rw [preload_context_once_eq]
    unfold pastSection
    rw [hexc]
  · intro h1 h2 h3
    have hg : load_editorial_guidelines_text fs root
        = .error (.fileNotFound
            ("File not found: " ++ EDITORIAL_GUIDELINES_PATH fs root)) := by
      unfold load_editorial_guidelines_text safe_read_text_file
      rw [h1]
      simp
    have hb : load_briefing_text fs root
        = .error (.fileNotFound
            ("File not found: " ++ BRIEFING_PATH fs root)) := by
      unfold load_briefing_text safe_read_text_file
      rw [h2]
      simp
    have hp : load_past_newsletters_texts fs root
        = .error (.fileNotFound
            ("Directory not found: " ++ PAST_NEWSLETTERS_DIR fs root)) := by
      unfold load_past_newsletters_texts
      rw [h3]
      simp
    rw [preload_context_once_eq]
    unfold guidelinesSection briefingSection pastSection
    rw [hg, hb, hp]
    rfl

/-- Witness for C2: on the empty filesystem every section degrades to its
bracketed placeholder, with no failure; and on a filesystem whose guidelines
file exists but cannot be read, that section alone carries the inline
ReadFailure message. -/
theorem assembler_total_and_all_missing_witness :
    (preload_context_once fsAllMissing "/proj" =
      contextPreamble ++
        "[EDITORIAL GUIDELINES]\n" ++
          "[Could not load Editorial Guidelines: File not found: /proj/markdown-files/Editorial Guidelines.md]" ++ "\n\n" ++
        "[BRIEFING]\n" ++
          "[Could not load Briefing: File not found: /proj/markdown-files/Briefing.md]" ++ "\n\n" ++
        "[PAST NEWSLETTERS]\n" ++
          "[Could not load past newsletters: Directory not found: /proj/markdown-files/past_newsletter]") ∧
    (∃ b p : String,
      preload_context_once fsUnreadableGuidelines "/proj" =
        contextPreamble ++
          "[EDITORIAL GUIDELINES]\n" ++
            ("[Could not load Editorial Guidelines: "
              ++ (PyError.readFailure "Permission denied").message ++ "]")
            ++ "\n\n" ++
          "[BRIEFING]\n" ++ b ++ "\n\n" ++
          "[PAST NEWSLETTERS]\n" ++ p) := by
  constructor
  · have h := (assembler_total_and_all_missing fsAllMissing "/proj").2.2.2.2
      rfl rfl rfl
    rw [h]
    rfl
  · exact (assembler_total_and_all_missing fsUnreadableGuidelines "/proj").2.1
      (.readFailure "Permission denied") rfl

/-- C8: when all three sub-loads succeed (with a nonempty collection), the
assembled context is exactly the concatenation of the loaded guidelines,
briefing and joined newsletter blocks under the fixed bracketed headings
`[EDITORIAL GUIDELINES]`, `[BRIEFING]`, `[PAST NEWSLETTERS]`, in order. -/
theorem assembler_concatenates_sections (fs : FS) (root : String)
    (g b : String) (ps : List String)
    (hg : load_editorial_guidelines_text fs root = .ok g)
    (hb : load_briefing_text fs root = .ok b)
    (hp : load_past_newsletters_texts fs root = .ok ps)
    (hne : ps ≠ []) :
    preload_context_once fs root =
      contextPreamble ++
        "[EDITORIAL GUIDELINES]\n" ++ g ++ "\n\n" ++
        "[BRIEFING]\n" ++ b ++ "\n\n" ++
        "[PAST NEWSLETTERS]\n" ++ String.intercalate "\n\n" ps := by
  have hempty : ps.isEmpty = false := by
    cases ps with
    | nil => exact absurd rfl hne
    | cons a l => rfl
  rw [preload_context_once_eq]
  unfold guidelinesSection briefingSection pastSection
  rw [hg, hb, hp]
  simp [hempty]

/-- Witness for C8 on a concrete filesystem with every document present. -/
theorem assembler_concatenates_sections_witness :
    preload_context_once fsAllPresent "/proj" =
      contextPreamble ++
        "[EDITORIAL GUIDELINES]\n" ++ "Guidelines text" ++ "\n\n" ++
        "[BRIEFING]\n" ++ "Briefing text" ++ "\n\n" ++
        "[PAST NEWSLETTERS]\n" ++ "## 2024-01-01.md\nHello" := by
  have h := assembler_concatenates_sections fsAllPresent "/proj"
    "Guidelines text" "Briefing text" ["## 2024-01-01.md\nHello"]
    rfl rfl rfl (by decide)
  rw [h]
  rfl

/-- C9: a successful but empty collection load renders as the exact
placeholder `[No past newsletters found]`, both in the output of the
`load_past_newsletters` tool and in the assembled context section. -/
theorem empty_collection_renders_placeholder (fs : FS) (root : String)
    (h : load_past_newsletters_texts fs root = .ok []) :
    load_past_newsletters fs root = .ok "[No past newsletters found]" ∧
    ∃ g b : String,
      preload_context_once fs root =
        contextPreamble ++
          "[EDITORIAL GUIDELINES]\n" ++ g ++ "\n\n" ++
          "[BRIEFING]\n" ++ b ++ "\n\n" ++
          "[PAST NEWSLETTERS]\n" ++ "[No past newsletters found]" := by
  have hpast : pastSection fs root = "[No past newsletters found]" := by
    unfold pastSection
    rw [h]
    rfl
  constructor
  · unfold load_past_newsletters
    rw [h]
    rfl
  · refine ⟨guidelinesSection fs root, briefingSection fs root, ?_⟩
    rw [preload_context_once_eq, hpast]

/-- Witness for C9: the empty newsletter directory produces the placeholder
through the tool. -/
theorem empty_collection_renders_placeholder_witness :
    load_past_newsletters fsEmptyNewsletters "/proj"
      = .ok "[No past newsletters found]" :=
  (empty_collection_renders_placeholder fsEmptyNewsletters "/proj" rfl).1

/-- C10: for every filesystem state, the assembled context starts with the
fixed instruction preamble — which contains the acknowledgement phrase
`Context absorbed.` — before the first section heading; in particular the
first character is the `Y` of the preamble, never the `[` of a heading, so
the context is never the three sections alone. -/
theorem assembler_starts_with_preamble (fs : FS) (root : String) :
    (∃ rest : String,
      preload_context_once fs root
        = contextPreamble ++ ("[EDITORIAL GUIDELINES]\n" ++ rest)) ∧
    (∃ pre post : String,
      contextPreamble = pre ++ ("Context absorbed." ++ post)) ∧
    (preload_context_once fs root).data.head? = some 'Y' := by
  refine ⟨⟨guidelinesSection fs root ++ "\n\n" ++
      "[BRIEFING]\n" ++ briefingSection fs root ++ "\n\n" ++
      "[PAST NEWSLETTERS]\n" ++ pastSection fs root, ?_⟩, ⟨?_, ?_, ?_⟩, ?_⟩
  · rw [preload_context_once_eq]
    simp [String.append_assoc]
  · exact "You will be given initial private context for this conversation. Read it, internalize it, and acknowledge only with: \x27"
  · exact "\x27 Do not restate the context unless the user explicitly asks.\n\n"
  · rfl
  · rw [preload_context_once_eq]
    rfl
